import Mathlib

/-!
Verification of the receipt-generation core of `app.py` (a single-school
fee-tracking and receipt tool).  The PDF layer (fpdf) is modelled at the
layout-block level: a rendered page is the ordered list of drawing commands
the code issues (`set_font`, `cell`, `ln`, `multi_cell`); a document is the
ordered list of its pages.  Serialization of blocks to PDF bytes is the
external fpdf library and is outside the repository, so equality of documents
is stated at this block level.  Calls to `datetime.now()` are modelled by an
explicit `DT` argument (one per render call; batch loops take a `Nat → DT`
clock giving the time observed at each iteration).  Python dict `.get` with a
default is modelled by `Option.getD`; a plain `dict[...]` lookup that can
raise `KeyError` makes the surrounding function return `Option` (with `none`
for the raised error).  Amounts (Python floats) are modelled as rationals.
-/

namespace App

/-- A wall-clock instant as observed by `datetime.now()`. -/
structure DT where
  year : Nat
  month : Nat
  day : Nat
  hour : Nat
  minute : Nat
  second : Nat
deriving DecidableEq

/-- The decimal digit character for `d` (meaningful for `d < 10`). -/
def digitChar (d : Nat) : Char := Char.ofNat (48 + d)

/-- Zero-padded two-digit decimal rendering, as in `strftime` fields
(`%m`, `%d`, `%H`, `%M`, `%S`), all of which are below 100. -/
def pad2 (n : Nat) : String := String.mk [digitChar (n / 10 % 10), digitChar (n % 10)]

/-- Zero-padded four-digit decimal rendering, as in `strftime` `%Y`
(years below 10000). -/
def pad4 (n : Nat) : String :=
  String.mk [digitChar (n / 1000 % 10), digitChar (n / 100 % 10),
             digitChar (n / 10 % 10), digitChar (n % 10)]

/-- `strftime("%Y-%m-%d")`, the blank-date substitution format (app.py:111). -/
def fmtYMD (t : DT) : String := pad4 t.year ++ "-" ++ pad2 t.month ++ "-" ++ pad2 t.day

/-- `strftime("%Y%m%d-%H%M%S")`, the receipt-number timestamp (app.py:58). -/
def stamp (t : DT) : String :=
  pad4 t.year ++ pad2 t.month ++ pad2 t.day ++ "-" ++
    pad2 t.hour ++ pad2 t.minute ++ pad2 t.second

/-- `next_receipt_no` (app.py:57-58): the prefix argument, a dash, and the
second-granularity timestamp of the current time. -/
def next_receipt_no (pfx : String) (t : DT) : String := pfx ++ "-" ++ stamp t

/-- The two fee categories (`fee_key` values `"MENGAJI"` / `"SILAT"`). -/
inductive FeeKey where
  | MENGAJI
  | SILAT
deriving DecidableEq

/-- `fee_key.lower()` as used in generated filenames (app.py:250, 279). -/
def feeLower : FeeKey → String
  | .MENGAJI => "mengaji"
  | .SILAT => "silat"

/-- One roster record after `ensure_columns` normalization: the ten
`REQUIRED_COLS` of app.py:21-25, with the two amount columns numeric. -/
structure Student where
  NAMA : String
  NO_KP : String
  TINGKATAN : String
  KELAS : String
  MENGAJI_STATUS : String
  MENGAJI_AMOUNT : ℚ
  MENGAJI_DATE : String
  SILAT_STATUS : String
  SILAT_AMOUNT : ℚ
  SILAT_DATE : String
deriving DecidableEq

/-- The nested `ui_labels` config dict; each key may be absent. -/
structure UiLabels where
  mengaji : Option String
  silat : Option String
deriving DecidableEq

/-- A config document (`config.json` contents).  Every key may be absent;
`receipt_pfx` models the `"receipt_prefix"` key (app.py:112, 140). -/
structure Config where
  app_title : Option String
  branding_text : Option String
  currency : Option String
  receipt_footer : Option String
  receipt_pfx : Option String
  ui_labels : Option UiLabels
deriving DecidableEq

def default_app_title : String := "Sistem Yuran Asrama (Mengaji & Silat)"
def default_branding_text : String := "SMK PONDOK UPEH"
def default_receipt_footer : String :=
  "Resit ini dijana secara digital dan tidak memerlukan tandatangan."

/-- `DEFAULT_CONFIG` (app.py:13-19).  It has no `receipt_prefix` key. -/
def DEFAULT_CONFIG : Config :=
  ⟨some default_app_title, some default_branding_text, some "RM",
   some default_receipt_footer, none,
   some ⟨some "Yuran Mengaji", some "Yuran Silat"⟩⟩

/-- `cfg["ui_labels"]["mengaji"]` / `["silat"]` (app.py:108, 122): a plain
index with no fallback, so `none` models the `KeyError` raised when the
`ui_labels` dict or the inner key is absent. -/
def labelOf (cfg : Config) (fee_key : FeeKey) : Option String :=
  match cfg.ui_labels with
  | none => none
  | some u =>
    match fee_key with
    | .MENGAJI => u.mengaji
    | .SILAT => u.silat

/-- `st.title(cfg.get("app_title", DEFAULT_CONFIG["app_title"]))` (app.py:162). -/
def app_title_shown (cfg : Config) : String := cfg.app_title.getD default_app_title

/-- One fpdf drawing command issued while laying out a page. -/
inductive Block where
  | setFont (family style : String) (size : Nat)
  | cell (w h : Nat) (text : String) (ln : Bool)
  | lnBreak (h : Nat)
  | multiCell (w h : Nat) (text : String)
deriving DecidableEq

/-- A rendered page: the ordered drawing commands between two `add_page` calls. -/
abbrev Page := List Block

/-- A rendered document: its ordered pages. -/
abbrev Doc := List Page

/-- The text of the `i`-th drawing command of a page, when it is a `cell`. -/
def cellTextAt (p : Page) (i : Nat) : Option String :=
  match p[i]? with
  | some (Block.cell _ _ t _) => some t
  | _ => none

/-- Decimal digits of `n`, most significant first, with a structural fuel
argument (`fuel > n` suffices, see `natDecAux_spec`). -/
def natDecAux : Nat → Nat → List Char
  | 0, _ => []
  | fuel + 1, n =>
    if n < 10 then [digitChar n]
    else natDecAux fuel (n / 10) ++ [digitChar (n % 10)]

/-- Decimal digit characters of `n`, most significant first. -/
def natDecDigits (n : Nat) : List Char := natDecAux (n + 1) n

/-- Thousands grouping on a reversed digit list: after every three characters
taken from the right of the number, a `','` is inserted.  This is CPython's
`,` format-spec grouping, expressed on the reversed character list. -/
def commaRev : List Char → List Char
  | [] => []
  | [a] => [a]
  | [a, b] => [a, b]
  | [a, b, c] => [a, b, c]
  | a :: b :: c :: d :: rest => a :: b :: c :: ',' :: commaRev (d :: rest)

/-- Checks (on a reversed character list) the shape `(DDD,)* D{1,3}`:
digit groups of exactly three separated by commas, with a leading group of
one to three digits. -/
def chkRev : List Char → Bool
  | [] => false
  | [a] => a.isDigit
  | [a, b] => a.isDigit && b.isDigit
  | [a, b, c] => a.isDigit && b.isDigit && c.isDigit
  | a :: b :: c :: d :: rest =>
    a.isDigit && b.isDigit && c.isDigit && (d == ',') && chkRev rest

/-- `<digits with thousands separators>.<two digits>` rendering of a
non-negative amount given in cents. -/
def fmtCents (c : Nat) : String :=
  String.mk ((commaRev (natDecDigits (c / 100)).reverse).reverse ++
    '.' :: [digitChar (c % 100 / 10), digitChar (c % 100 % 10)])

/-- Round `a / b` (with `b > 0`) to an integer, ties to even — the rounding
CPython's fixed-point float formatting applies. -/
def roundHalfEvenInt (a : Int) (b : Nat) : Int :=
  let f : Int := a.fdiv b
  let r2 : Int := 2 * (a - f * b)
  if r2 < (b : Int) then f
  else if (b : Int) < r2 then f + 1
  else if f % 2 = 0 then f else f + 1

/-- CPython's `format(amount, ",.2f")` on a (finite) numeric amount:
optional sign, thousands-grouped integer part, and exactly two fractional
digits obtained by rounding the amount to cents, ties to even. -/
def pyFormatComma2f (q : ℚ) : String :=
  if q.num < 0 then "-" ++ fmtCents (roundHalfEvenInt (-q.num * 100) q.den).toNat
  else fmtCents (roundHalfEvenInt (q.num * 100) q.den).toNat

/-- Spec-side shape check for the rendered amount: some characters forming
thousands-grouped digits, then `'.'`, then exactly two digit characters. -/
def currencyFormatOk (s : String) : Bool :=
  match s.data.reverse with
  | b :: a :: dot :: rest => b.isDigit && a.isDigit && (dot == '.') && chkRev rest
  | _ => false

/-- `build_receipt_pdf_bytes` (app.py:61-103), at the layout-block level:
the ordered drawing commands of the single receipt page.  The serialized
byte form (`pdf.output`) is the external fpdf library and is represented by
this block list. -/
def build_receipt_pdf_bytes (cfg : Config) (student : Student) (fee_type_label : String)
    (amount : ℚ) (date_str : String) (receipt_no : String) : Page :=
  [Block.setFont "Arial" "B" 14,
   Block.cell 0 8 (cfg.branding_text.getD default_branding_text) true,
   Block.setFont "Arial" "" 12,
   Block.cell 0 6 "RESIT PEMBAYARAN YURAN" true,
   Block.lnBreak 4,
   Block.setFont "Arial" "" 11,
   Block.cell 40 6 "Nama:" false,
   Block.cell 0 6 student.NAMA true,
   Block.cell 40 6 "No. KP:" false,
   Block.cell 0 6 student.NO_KP true,
   Block.cell 40 6 "Tingkatan / Kelas:" false,
   Block.cell 0 6 (student.TINGKATAN ++ " / " ++ student.KELAS) true,
   Block.lnBreak 4,
   Block.setFont "Arial" "B" 12,
   Block.cell 0 7 "Yuran Dibayar:" true,
   Block.setFont "Arial" "" 11,
   Block.cell 70 6 ("- " ++ fee_type_label) false,
   Block.cell 0 6 (cfg.currency.getD "RM" ++ pyFormatComma2f amount) true,
   Block.lnBreak 6,
   Block.cell 40 6 "Tarikh:" false,
   Block.cell 0 6 date_str true,
   Block.cell 40 6 "No. Resit:" false,
   Block.cell 0 6 receipt_no true,
   Block.lnBreak 8,
   Block.setFont "Arial" "I" 9,
   Block.multiCell 0 5 (cfg.receipt_footer.getD default_receipt_footer)]

/-- The `fee_map` amount column lookup of `generate_single_pdf` (app.py:106-110). -/
def amountField (row : Student) : FeeKey → ℚ
  | .MENGAJI => row.MENGAJI_AMOUNT
  | .SILAT => row.SILAT_AMOUNT

/-- The `fee_map` date column lookup of `generate_single_pdf` (app.py:106-109). -/
def dateField (row : Student) : FeeKey → String
  | .MENGAJI => row.MENGAJI_DATE
  | .SILAT => row.SILAT_DATE

/-- `generate_single_pdf` (app.py:105-113).  `now` is the time observed by
this render call; `none` models the `KeyError` from the label lookup. -/
def generate_single_pdf (cfg : Config) (student_row : Student) (fee_key : FeeKey)
    (now : DT) : Option Page :=
  (labelOf cfg fee_key).map (fun label =>
    let amount : ℚ := amountField student_row fee_key
    let date_str : String :=
      if dateField student_row fee_key = "" then fmtYMD now else dateField student_row fee_key
    let rno : String := next_receipt_no (cfg.receipt_pfx.getD "DN") now
    build_receipt_pdf_bytes cfg student_row label amount date_str rno)

/-- One page of the `generate_bulk_one_pdf` loop body (app.py:124-153),
transcribed separately from the single-record renderer: the drawing commands
issued for one row, with `t` the time observed at this iteration. -/
def bulk_page (cfg : Config) (label : String) (row : Student) (fee_key : FeeKey)
    (t : DT) : Page :=
  let amt : ℚ :=
    match fee_key with
    | .MENGAJI => row.MENGAJI_AMOUNT
    | .SILAT => row.SILAT_AMOUNT
  let date_str0 : String :=
    match fee_key with
    | .MENGAJI => row.MENGAJI_DATE
    | .SILAT => row.SILAT_DATE
  let date_str : String := if date_str0 = "" then fmtYMD t else date_str0
  let rno : String := next_receipt_no (cfg.receipt_pfx.getD "DN") t
  [Block.setFont "Arial" "B" 14,
   Block.cell 0 8 (cfg.branding_text.getD default_branding_text) true,
   Block.setFont "Arial" "" 12,
   Block.cell 0 6 "RESIT PEMBAYARAN YURAN" true,
   Block.lnBreak 4,
   Block.setFont "Arial" "" 11,
   Block.cell 40 6 "Nama:" false,
   Block.cell 0 6 row.NAMA true,
   Block.cell 40 6 "No. KP:" false,
   Block.cell 0 6 row.NO_KP true,
   Block.cell 40 6 "Tingkatan / Kelas:" false,
   Block.cell 0 6 (row.TINGKATAN ++ " / " ++ row.KELAS) true,
   Block.lnBreak 4,
   Block.setFont "Arial" "B" 12,
   Block.cell 0 7 "Yuran Dibayar:" true,
   Block.setFont "Arial" "" 11,
   Block.cell 70 6 ("- " ++ label) false,
   Block.cell 0 6 (cfg.currency.getD "RM" ++ pyFormatComma2f amt) true,
   Block.lnBreak 6,
   Block.cell 40 6 "Tarikh:" false,
   Block.cell 0 6 date_str true,
   Block.cell 40 6 "No. Resit:" false,
   Block.cell 0 6 rno true,
   Block.lnBreak 8,
   Block.setFont "Arial" "I" 9,
   Block.multiCell 0 5 (cfg.receipt_footer.getD default_receipt_footer)]

/-- The `df_subset.iterrows()` loop of `generate_bulk_one_pdf` (app.py:123):
one page per row in input order, iteration `i` observing time `clock i`. -/
def bulk_pages (cfg : Config) (label : String) (fee_key : FeeKey) (clock : Nat → DT) :
    List Student → List Page
  | [] => []
  | row :: rest =>
    bulk_page cfg label row fee_key (clock 0) ::
      bulk_pages cfg label fee_key (fun i => clock (i + 1)) rest

/-- `generate_bulk_one_pdf` (app.py:115-157).  The label lookup at app.py:122
runs before the loop, so a missing `ui_labels` key raises (modelled `none`)
even for an empty subset; otherwise the document is one page per row. -/
def generate_bulk_one_pdf (cfg : Config) (df_subset : List Student) (fee_key : FeeKey)
    (clock : Nat → DT) : Option Doc :=
  (labelOf cfg fee_key).map (fun label => bulk_pages cfg label fee_key clock df_subset)

/-- `row['NAMA'].replace(' ', '_')` (app.py:250, 279). -/
def sanitizeName (s : String) : String :=
  String.mk (s.data.map (fun c => if c = ' ' then '_' else c))

/-- The per-record archive filename (app.py:279):
`resit_<category>_<sanitized name>.pdf`. -/
def zipFname (fee_key : FeeKey) (nama : String) : String :=
  "resit_" ++ feeLower fee_key ++ "_" ++ sanitizeName nama ++ ".pdf"

/-- The zip-mode loop body (app.py:277-282): for each row, render its single
document and record the `(filename, document)` write, which goes both into
the archive (`zf.writestr`) and to the receipts directory.  A render failure
(label `KeyError`) aborts the whole operation. -/
def zipLoop (cfg : Config) (fee_key : FeeKey) (clock : Nat → DT) :
    List Student → Option (List (String × Page))
  | [] => some []
  | row :: rest =>
    match generate_single_pdf cfg row fee_key (clock 0),
          zipLoop cfg fee_key (fun i => clock (i + 1)) rest with
    | some p, some tail => some ((zipFname fee_key row.NAMA, p) :: tail)
    | _, _ => none

/-- Reading an entry of the finished archive by name: Python's
`ZipFile.read` resolves a duplicated name to the entry written last
(`NameToInfo` is overwritten by each `writestr`). -/
def readLast (entries : List (String × Page)) (name : String) : Option Page :=
  ((entries.filter (fun e => e.1 == name)).getLast?).map Prod.snd

/-- The receipts-directory state after replaying the writes of a zip run:
each `open(..., "wb")` replaces the previous content of that filename. -/
def diskAfter (entries : List (String × Page)) (name : String) : Option Page :=
  (entries.foldl (fun m e => fun n => if n = e.1 then some e.2 else m n)
    (fun _ => none)) name

/-- The "Jana Bulk (Satu Fail PDF)" button handler guard (app.py:257-262):
an empty selection is answered with a warning and the renderer is not called. -/
def jana_bulk_handler (cfg : Config) (selected : List Student) (fee_key : FeeKey)
    (clock : Nat → DT) : Except String (Option Doc) :=
  if selected.isEmpty then Except.error "Pilih sekurang-kurangnya seorang."
  else Except.ok (generate_bulk_one_pdf cfg selected fee_key clock)

/-- The "Jana Bulk (Fail Terpisah → ZIP)" button handler guard
(app.py:270-282): an empty selection is answered with a warning and no
archive is built. -/
def jana_zip_handler (cfg : Config) (selected : List Student) (fee_key : FeeKey)
    (clock : Nat → DT) : Except String (Option (List (String × Page))) :=
  if selected.isEmpty then Except.error "Pilih sekurang-kurangnya seorang."
  else Except.ok (zipLoop cfg fee_key clock selected)

/-- A raw roster row as read from CSV (`dtype=str, keep_default_na=False`):
every `REQUIRED_COLS` cell is a string, or absent when the column is missing. -/
structure RawStudent where
  NAMA : Option String
  NO_KP : Option String
  TINGKATAN : Option String
  KELAS : Option String
  MENGAJI_STATUS : Option String
  MENGAJI_AMOUNT : Option String
  MENGAJI_DATE : Option String
  SILAT_STATUS : Option String
  SILAT_AMOUNT : Option String
  SILAT_DATE : Option String
deriving DecidableEq

/-- Splits a character list at its first `'.'`, keeping the remainder
(including any further dots) as the fractional part. -/
def splitOnDot : List Char → List Char × Option (List Char)
  | [] => ([], none)
  | c :: rest =>
    if c = '.' then ([], some rest)
    else
      let p := splitOnDot rest
      (c :: p.1, p.2)

/-- Value of a decimal digit string, most significant first. -/
def digitsToNat (cs : List Char) : Nat :=
  cs.foldl (fun a c => a * 10 + (c.toNat - 48)) 0

/-- The unsigned-decimal core of `pd.to_numeric`: digits with at most one
dot and at least one digit in total; anything else is a parse failure. -/
def parseUnsigned (cs : List Char) : Option ℚ :=
  let p := splitOnDot cs
  match p.2 with
  | none =>
    if p.1 ≠ [] ∧ p.1.all Char.isDigit then some (digitsToNat p.1 : ℚ) else none
  | some fp =>
    if (p.1 ≠ [] ∨ fp ≠ []) ∧ p.1.all Char.isDigit ∧ fp.all Char.isDigit then
      some ((digitsToNat p.1 : ℚ) + (digitsToNat fp : ℚ) / (10 : ℚ) ^ fp.length)
    else none

/-- `pd.to_numeric(value, errors="coerce")` on one string cell: an optionally
signed decimal numeral, `none` (pandas `NaN`) on parse failure. -/
def to_numeric (s : String) : Option ℚ :=
  match s.data with
  | [] => none
  | c :: rest =>
    if c = '-' then (parseUnsigned rest).map (fun q => -q)
    else if c = '+' then parseUnsigned rest
    else parseUnsigned (c :: rest)

/-- `ensure_columns` (app.py:38-44) on one row: missing cells are synthesized
as the empty string, and the two amount columns are coerced with
`pd.to_numeric(..., errors="coerce").fillna(0.0)`. -/
def ensure_columns (r : RawStudent) : Student :=
  ⟨r.NAMA.getD "", r.NO_KP.getD "", r.TINGKATAN.getD "", r.KELAS.getD "",
   r.MENGAJI_STATUS.getD "",
   (to_numeric (r.MENGAJI_AMOUNT.getD "")).getD 0,
   r.MENGAJI_DATE.getD "",
   r.SILAT_STATUS.getD "",
   (to_numeric (r.SILAT_AMOUNT.getD "")).getD 0,
   r.SILAT_DATE.getD ""⟩

/-- Sample times one second apart, as three bulk-loop iterations would observe. -/
def t0 : DT := ⟨2024, 5, 17, 10, 30, 0⟩
def t1 : DT := ⟨2024, 5, 17, 10, 30, 1⟩
def t2 : DT := ⟨2024, 5, 17, 10, 30, 2⟩

/-- A clock whose observations all fall within the same second. -/
def clk0 : Nat → DT := fun _ => t0

/-- A clock whose first three observations fall in distinct seconds. -/
def clk012 : Nat → DT := fun i => if i = 0 then t0 else if i = 1 then t1 else t2

def sAli : Student :=
  ⟨"Ali bin Ahmad", "010101-01-0101", "4", "Bestari",
   "Sudah Bayar", 50, "2024-05-01", "Belum Bayar", 0, ""⟩

def sBud : Student :=
  ⟨"Budi bin Chair", "020202-02-0202", "5", "Dinamik",
   "Belum Bayar", 30, "", "Sudah Bayar", 20, "2024-04-02"⟩

def sCik : Student :=
  ⟨"Cik Siti", "030303-03-0303", "4", "Kreatif",
   "Sudah Bayar", 1234567, "2024-03-03", "Belum Bayar", 0, ""⟩

/-- Same roster name as `sAli`, so the archive filename collides. -/
def sAli2 : Student :=
  ⟨"Ali bin Ahmad", "040404-04-0404", "5", "Inovatif",
   "Sudah Bayar", 25, "2024-02-02", "Belum Bayar", 0, ""⟩

/-- Agrees with `sAli` on every column except the three SILAT columns. -/
def sAliSilat : Student :=
  ⟨"Ali bin Ahmad", "010101-01-0101", "4", "Bestari",
   "Sudah Bayar", 50, "2024-05-01", "Sudah Bayar", 75, "2024-01-31"⟩

/-- A config with every key absent. -/
def emptyConfig : Config := ⟨none, none, none, none, none, none⟩

/-- A config whose only key is `ui_labels` (with both inner labels). -/
def labelsOnlyConfig : Config :=
  ⟨none, none, none, none, none, some ⟨some "Yuran Mengaji", some "Yuran Silat"⟩⟩

/-- A raw row whose MENGAJI amount cell holds a negative numeral. -/
def rawNeg : RawStudent :=
  ⟨some "Dodi", some "050505-05-0505", some "4", some "Bestari",
   some "Belum Bayar", some "-5", some "", some "Belum Bayar", some "abc", some ""⟩

/-- The character produced for a decimal digit is a digit character. -/
theorem digitChar_isDigit (d : Nat) (h : d < 10) : (digitChar d).isDigit = true := by
  interval_cases d <;> decide

/-- `natDecAux` with sufficient fuel yields a nonempty, all-digit list. -/
theorem natDecAux_spec : ∀ fuel n : Nat, n < fuel →
    natDecAux fuel n ≠ [] ∧ ∀ c ∈ natDecAux fuel n, c.isDigit = true
  | 0, _, h => absurd h (by omega)
  | fuel + 1, n, h => by
    by_cases h10 : n < 10
    · refine ⟨by simp [natDecAux, h10], ?_⟩
      intro c hc
      simp [natDecAux, h10] at hc
      subst hc
      exact digitChar_isDigit n h10
    · have hrec := natDecAux_spec fuel (n / 10) (by omega)
      refine ⟨by simp [natDecAux, h10], ?_⟩
      intro c hc
      simp only [natDecAux, if_neg h10] at hc
      rcases List.mem_append.mp hc with hc | hc
      · exact hrec.2 c hc
      · simp at hc
        subst hc
        exact digitChar_isDigit (n % 10) (Nat.mod_lt _ (by omega))

theorem natDecDigits_ne_nil (n : Nat) : natDecDigits n ≠ [] :=
  (natDecAux_spec (n + 1) n (by omega)).1

theorem natDecDigits_digits (n : Nat) : ∀ c ∈ natDecDigits n, c.isDigit = true :=
  (natDecAux_spec (n + 1) n (by omega)).2

/-- Thousands grouping of a nonempty all-digit (reversed) list passes the
grouped-shape check. -/
theorem commaRev_chk : ∀ l : List Char, (∀ c ∈ l, c.isDigit = true) → l ≠ [] →
    chkRev (commaRev l) = true
  | [], _, h1 => absurd rfl h1
  | [a], h2, _ => by simp [commaRev, chkRev, h2 a (by simp)]
  | [a, b], h2, _ => by simp [commaRev, chkRev, h2 a (by simp), h2 b (by simp)]
  | [a, b, c], h2, _ => by
    simp [commaRev, chkRev, h2 a (by simp), h2 b (by simp), h2 c (by simp)]
  | a :: b :: c :: d :: rest, h2, _ => by
    have ih := commaRev_chk (d :: rest)
      (fun x hx => h2 x (List.mem_cons_of_mem a (List.mem_cons_of_mem b
        (List.mem_cons_of_mem c hx)))) (by simp)
    simp [commaRev, chkRev, ih, h2 a (by simp), h2 b (by simp), h2 c (by simp)]

/-- Every cents rendering has the claimed shape: thousands-grouped digits,
a dot, and exactly two digit characters. -/
theorem fmtCents_ok (c : Nat) : currencyFormatOk (fmtCents c) = true := by
  have h2 : ∀ x ∈ (natDecDigits (c / 100)).reverse, x.isDigit = true := by
    intro x hx
    exact natDecDigits_digits _ x (List.mem_reverse.mp hx)
  have h1 : (natDecDigits (c / 100)).reverse ≠ [] := by
    simpa using natDecDigits_ne_nil (c / 100)
  have hchk := commaRev_chk _ h2 h1
  have hd1 := digitChar_isDigit (c % 100 / 10) (by omega)
  have hd2 := digitChar_isDigit (c % 100 % 10) (Nat.mod_lt _ (by omega))
  simp [fmtCents, currencyFormatOk, List.reverse_append, hchk, hd1, hd2]

/-- Appending distinct suffixes to the same string keeps them distinct. -/
theorem string_append_right_ne (p : String) {a b : String} (h : a ≠ b) :
    p ++ a ≠ p ++ b := by
  intro he
  apply h
  have hd : p.data ++ a.data = p.data ++ b.data := congrArg String.data he
  exact congrArg String.mk (List.append_cancel_left hd)

/-- Receipt numbers built from distinct timestamps are distinct. -/
theorem next_receipt_no_ne (pfx : String) {t u : DT} (h : stamp t ≠ stamp u) :
    next_receipt_no pfx t ≠ next_receipt_no pfx u :=
  string_append_right_ne (pfx ++ "-") h

/-- The bulk loop body lays out exactly the page of the single-record
renderer, given the same observed time. -/
theorem bulk_page_eq_single (cfg : Config) (label : String) (row : Student)
    (fee_key : FeeKey) (t : DT) :
    bulk_page cfg label row fee_key t =
      build_receipt_pdf_bytes cfg row label (amountField row fee_key)
        (if dateField row fee_key = "" then fmtYMD t else dateField row fee_key)
        (next_receipt_no (cfg.receipt_pfx.getD "DN") t) := by
  cases fee_key <;> rfl

/-- The single-record renderer, expressed through the bulk loop body. -/
theorem generate_single_pdf_eq_bulk_page (cfg : Config) (row : Student)
    (fee_key : FeeKey) (t : DT) :
    generate_single_pdf cfg row fee_key t =
      (labelOf cfg fee_key).map (fun label => bulk_page cfg label row fee_key t) := by
  cases h : labelOf cfg fee_key <;>
    simp [generate_single_pdf, h, bulk_page_eq_single]

theorem bulk_pages_length (cfg : Config) (label : String) (fee_key : FeeKey) :
    ∀ (clock : Nat → DT) (rows : List Student),
      (bulk_pages cfg label fee_key clock rows).length = rows.length := by
  intro clock rows
  induction rows generalizing clock with
  | nil => rfl
  | cons r rest ih => simp [bulk_pages, ih]

theorem bulk_pages_getElem (cfg : Config) (label : String) (fee_key : FeeKey) :
    ∀ (clock : Nat → DT) (rows : List Student) (i : Nat),
      (bulk_pages cfg label fee_key clock rows)[i]? =
        (rows[i]?).map (fun row => bulk_page cfg label row fee_key (clock i)) := by
  intro clock rows
  induction rows generalizing clock with
  | nil => intro i; simp [bulk_pages]
  | cons r rest ih =>
    intro i
    cases i with
    | zero => simp [bulk_pages]
    | succ n => simpa [bulk_pages] using ih (fun j => clock (j + 1)) n

/-- The archive entry names are exactly the per-row filenames, in row order. -/
theorem zipLoop_names (cfg : Config) (fee_key : FeeKey) :
    ∀ (clock : Nat → DT) (rows : List Student) (entries : List (String × Page)),
      zipLoop cfg fee_key clock rows = some entries →
      entries.map Prod.fst = rows.map (fun r => zipFname fee_key r.NAMA) := by
  intro clock rows
  induction rows generalizing clock with
  | nil =>
    intro entries h
    simp [zipLoop] at h
    subst h
    rfl
  | cons r rest ih =>
    intro entries h
    rcases hg : generate_single_pdf cfg r fee_key (clock 0) with _ | p <;>
      rcases ht : zipLoop cfg fee_key (fun i => clock (i + 1)) rest with _ | tail <;>
        simp [zipLoop, hg, ht] at h
    subst h
    simp [ih _ _ ht]

/-- Claim C1 (amended): the Interactive Shell guards empty batch selections —
both bulk buttons answer an empty selection with a warning message and never
invoke the Core — while the Core itself, handed an empty sequence, does not
fail: the combined renderer returns a vacuous zero-page document and the zip
loop returns an empty archive. -/
theorem empty_batch_amended (cfg : Config) (fee_key : FeeKey) (clock : Nat → DT) :
    jana_bulk_handler cfg [] fee_key clock =
      Except.error "Pilih sekurang-kurangnya seorang." ∧
    jana_zip_handler cfg [] fee_key clock =
      Except.error "Pilih sekurang-kurangnya seorang." ∧
    generate_bulk_one_pdf cfg [] fee_key clock = (labelOf cfg fee_key).map (fun _ => []) ∧
    zipLoop cfg fee_key clock [] = some [] := by
  refine ⟨rfl, rfl, ?_, rfl⟩
  cases h : labelOf cfg fee_key <;> simp [generate_bulk_one_pdf, h, bulk_pages]

/-- Claim C1 is false as stated: on the empty student sequence the batch
operations do not fail with an empty-input error — the combined renderer
succeeds with a vacuous zero-page document and the zip loop succeeds with an
empty archive. -/
theorem empty_batch_counterexample :
    generate_bulk_one_pdf DEFAULT_CONFIG [] FeeKey.MENGAJI clk0 = some [] ∧
    zipLoop DEFAULT_CONFIG FeeKey.MENGAJI clk0 [] = some [] :=
  ⟨rfl, rfl⟩

/-- Claim C2: for every sequence of records, the combined batch render has
exactly one page per record, in input order, and page `i` is exactly the
single-record render of record `i` given the same observed time (hence the
same substituted date and receipt number). -/
theorem bulk_combined_refines_single (cfg : Config) (rows : List Student)
    (fee_key : FeeKey) (clock : Nat → DT) (doc : Doc)
    (hdoc : generate_bulk_one_pdf cfg rows fee_key clock = some doc) :
    doc.length = rows.length ∧
    ∀ i : Nat, doc[i]? =
      (rows[i]?).bind (fun row => generate_single_pdf cfg row fee_key (clock i)) := by
  rcases hl : labelOf cfg fee_key with _ | label <;>
    simp only [generate_bulk_one_pdf, hl, Option.map_none', Option.map_some'] at hdoc
  · exact absurd hdoc (by simp)
  · replace hdoc := Option.some.inj hdoc
    subst hdoc
    refine ⟨bulk_pages_length cfg label fee_key clock rows, fun i => ?_⟩
    rw [bulk_pages_getElem]
    rcases hri : rows[i]? with _ | row
    · rfl
    · simp [generate_single_pdf_eq_bulk_page, hl]

theorem bulk_combined_refines_single_witness :
    ((generate_bulk_one_pdf DEFAULT_CONFIG [sAli, sBud] FeeKey.MENGAJI clk012).getD []).length = 2 ∧
    ((generate_bulk_one_pdf DEFAULT_CONFIG [sAli, sBud] FeeKey.MENGAJI clk012).getD [])[1]? =
      (([sAli, sBud] : List Student)[1]?).bind
        (fun row => generate_single_pdf DEFAULT_CONFIG row FeeKey.MENGAJI (clk012 1)) := by
  have h := bulk_combined_refines_single DEFAULT_CONFIG [sAli, sBud] FeeKey.MENGAJI clk012
    ((generate_bulk_one_pdf DEFAULT_CONFIG [sAli, sBud] FeeKey.MENGAJI clk012).getD []) rfl
  exact ⟨h.1, h.2 1⟩

/-- Claim C3: archive-mode filenames are determined by the fee category and
the student's name with spaces replaced by underscores, and when two records
sanitize to the same filename the later write wins both on archive lookup
by name and in the receipts directory. -/
theorem archive_naming_and_overwrite (cfg : Config) (fee_key : FeeKey)
    (clock : Nat → DT) (rows : List Student) (entries : List (String × Page))
    (hz : zipLoop cfg fee_key clock rows = some entries) :
    entries.map Prod.fst = rows.map (fun r => zipFname fee_key r.NAMA) ∧
    (∀ r1 r2, rows = [r1, r2] →
      zipFname fee_key r1.NAMA = zipFname fee_key r2.NAMA →
      readLast entries (zipFname fee_key r1.NAMA) =
        generate_single_pdf cfg r2 fee_key (clock 1) ∧
      diskAfter entries (zipFname fee_key r1.NAMA) =
        generate_single_pdf cfg r2 fee_key (clock 1)) := by
  refine ⟨zipLoop_names cfg fee_key clock rows entries hz, ?_⟩
  intro r1 r2 hrows hcol
  subst hrows
  rcases hg1 : generate_single_pdf cfg r1 fee_key (clock 0) with _ | p1 <;>
    rcases hg2 : generate_single_pdf cfg r2 fee_key (clock 1) with _ | p2 <;>
      simp [zipLoop, hg1, hg2] at hz
  subst hz
  constructor
  · simp [readLast, List.filter, hcol, hg2]
  · simp [diskAfter, hcol, hg2]

theorem archive_naming_and_overwrite_witness :
    ((zipLoop DEFAULT_CONFIG FeeKey.MENGAJI clk012 [sAli, sAli2]).getD []).map Prod.fst =
      [zipFname FeeKey.MENGAJI sAli.NAMA, zipFname FeeKey.MENGAJI sAli2.NAMA] ∧
    readLast ((zipLoop DEFAULT_CONFIG FeeKey.MENGAJI clk012 [sAli, sAli2]).getD [])
        (zipFname FeeKey.MENGAJI sAli.NAMA) =
      generate_single_pdf DEFAULT_CONFIG sAli2 FeeKey.MENGAJI (clk012 1) ∧
    diskAfter ((zipLoop DEFAULT_CONFIG FeeKey.MENGAJI clk012 [sAli, sAli2]).getD [])
        (zipFname FeeKey.MENGAJI sAli.NAMA) =
      generate_single_pdf DEFAULT_CONFIG sAli2 FeeKey.MENGAJI (clk012 1) := by
  have h := archive_naming_and_overwrite DEFAULT_CONFIG FeeKey.MENGAJI clk012 [sAli, sAli2]
    ((zipLoop DEFAULT_CONFIG FeeKey.MENGAJI clk012 [sAli, sAli2]).getD []) rfl
  have h2 := h.2 sAli sAli2 rfl rfl
  exact ⟨h.1, h2.1, h2.2⟩

/-- Claim C4 (amended): after normalization both amount fields are numeric,
with any unparsable cell coerced to 0 and any parsable numeral kept exactly;
non-negativity is not enforced (a negative numeral is preserved, see the
counterexample). -/
theorem amount_coercion_amended (r : RawStudent) :
    ((to_numeric (r.MENGAJI_AMOUNT.getD "") = none →
        (ensure_columns r).MENGAJI_AMOUNT = 0) ∧
     (∀ q : ℚ, to_numeric (r.MENGAJI_AMOUNT.getD "") = some q →
        (ensure_columns r).MENGAJI_AMOUNT = q)) ∧
    ((to_numeric (r.SILAT_AMOUNT.getD "") = none →
        (ensure_columns r).SILAT_AMOUNT = 0) ∧
     (∀ q : ℚ, to_numeric (r.SILAT_AMOUNT.getD "") = some q →
        (ensure_columns r).SILAT_AMOUNT = q)) := by
  refine ⟨⟨fun h => ?_, fun q h => ?_⟩, ⟨fun h => ?_, fun q h => ?_⟩⟩ <;>
    simp [ensure_columns, h]

theorem amount_coercion_amended_witness : (ensure_columns rawNeg).SILAT_AMOUNT = 0 :=
  (amount_coercion_amended rawNeg).2.1 (by decide)

/-- Claim C4 is false as stated: the loaded roster's amount fields need not
be non-negative — a cell holding `"-5"` is coerced to the negative numeric
value `-5`, not clamped (while an unparsable cell is coerced to 0). -/
theorem negative_amount_counterexample :
    ¬ 0 ≤ (ensure_columns rawNeg).MENGAJI_AMOUNT ∧
    (ensure_columns rawNeg).MENGAJI_AMOUNT = -5 ∧
    (ensure_columns rawNeg).SILAT_AMOUNT = 0 :=
  ⟨by decide, by decide, by decide⟩

/-- Claim C5: for every non-negative amount, the payment line is the
configured currency symbol immediately followed by the amount rendered with
thousands grouping and exactly two decimal digits; amount 0 renders as
`<currency>0.00`. -/
theorem payment_line_currency_format (cfg : Config) (student : Student)
    (fee_type_label : String) (q : ℚ) (date_str receipt_no : String) (hq : 0 ≤ q) :
    cellTextAt (build_receipt_pdf_bytes cfg student fee_type_label q date_str receipt_no) 17 =
      some (cfg.currency.getD "RM" ++ pyFormatComma2f q) ∧
    currencyFormatOk (pyFormatComma2f q) = true ∧
    cellTextAt (build_receipt_pdf_bytes cfg student fee_type_label 0 date_str receipt_no) 17 =
      some (cfg.currency.getD "RM" ++ "0.00") := by
  refine ⟨rfl, ?_, rfl⟩
  have hnum : ¬ q.num < 0 := by
    have := Rat.num_nonneg.mpr hq
    omega
  rw [pyFormatComma2f, if_neg hnum]
  exact fmtCents_ok _

theorem payment_line_currency_format_witness :
    cellTextAt (build_receipt_pdf_bytes DEFAULT_CONFIG sCik "Yuran Mengaji" 1234567
        "2024-03-03" "DN-20240517-103000") 17 = some "RM1,234,567.00" ∧
    currencyFormatOk (pyFormatComma2f 1234567) = true := by
  have h := payment_line_currency_format DEFAULT_CONFIG sCik "Yuran Mengaji" 1234567
    "2024-03-03" "DN-20240517-103000" (by decide)
  exact ⟨h.1.trans (by rfl), h.2.1⟩

/-- Claim C6: when the selected category's paid-date field is blank the
single render substitutes the current date formatted `YYYY-MM-DD`, and a
non-blank date is used as-is; the substitution happens only in the rendered
page (the renderer is a pure function of the record and writes nothing
back — no `save_students` call exists in the receipt flow). -/
theorem blank_date_substitution (cfg : Config) (row : Student) (fee_key : FeeKey)
    (now : DT) (label : String) (hl : labelOf cfg fee_key = some label) :
    cellTextAt ((generate_single_pdf cfg row fee_key now).getD []) 20 =
      some (if dateField row fee_key = "" then fmtYMD now else dateField row fee_key) := by
  simp only [generate_single_pdf, hl, Option.map_some', Option.getD_some]
  rfl

theorem blank_date_substitution_witness :
    cellTextAt ((generate_single_pdf DEFAULT_CONFIG sBud FeeKey.MENGAJI t0).getD []) 20 =
      some "2024-05-17" := by
  rw [blank_date_substitution DEFAULT_CONFIG sBud FeeKey.MENGAJI t0 "Yuran Mengaji" rfl]
  rfl

/-- Claim C7 (amended): the top-level config keys used by the pipeline —
title, branding text, currency, footer, and receipt-number prefix — fall
back to their named defaults when absent, but the per-category display
labels do not fall back: rendering with a config that lacks the `ui_labels`
mapping fails (a `KeyError`, modelled `none`) instead of using a default
label. -/
theorem config_defaults_amended (s : Student) (label : String) (q : ℚ)
    (d rno : String) (fee_key : FeeKey) (now : DT) :
    cellTextAt (build_receipt_pdf_bytes emptyConfig s label q d rno) 1 =
      some default_branding_text ∧
    cellTextAt (build_receipt_pdf_bytes emptyConfig s label q d rno) 17 =
      some ("RM" ++ pyFormatComma2f q) ∧
    (build_receipt_pdf_bytes emptyConfig s label q d rno)[25]? =
      some (Block.multiCell 0 5 default_receipt_footer) ∧
    app_title_shown emptyConfig = default_app_title ∧
    cellTextAt ((generate_single_pdf labelsOnlyConfig s fee_key now).getD []) 22 =
      some (next_receipt_no "DN" now) ∧
    generate_single_pdf emptyConfig s fee_key now = none := by
  refine ⟨rfl, rfl, rfl, rfl, ?_, rfl⟩
  cases fee_key <;> rfl

/-- Claim C7 is false as stated: a config with the `ui_labels` key absent
does not fall back to the default per-category display labels — the single
render fails (label lookup `KeyError`, modelled `none`) instead. -/
theorem missing_labels_counterexample :
    generate_single_pdf emptyConfig sAli FeeKey.MENGAJI t0 = none ∧
    labelOf emptyConfig FeeKey.MENGAJI = none :=
  ⟨rfl, rfl⟩

/-- Claim C8: the renderer is deterministic over its explicit inputs — two
calls with equal config, record, label, amount, date string and receipt
number produce the identical page (hence identical serialized layout
content). -/
theorem render_deterministic (cfg cfgB : Config) (s sB : Student) (l lB : String)
    (q qB : ℚ) (d dB rno rnoB : String)
    (hc : cfg = cfgB) (hs : s = sB) (hl : l = lB) (hq : q = qB) (hd : d = dB)
    (hr : rno = rnoB) :
    build_receipt_pdf_bytes cfg s l q d rno = build_receipt_pdf_bytes cfgB sB lB qB dB rnoB := by
  subst hc hs hl hq hd hr
  rfl

theorem render_deterministic_witness :
    build_receipt_pdf_bytes DEFAULT_CONFIG sAli "Yuran Mengaji" 50 "2024-05-01"
        "DN-20240517-103000" =
      build_receipt_pdf_bytes DEFAULT_CONFIG sAli "Yuran Mengaji" 50 "2024-05-01"
        "DN-20240517-103000" :=
  render_deterministic DEFAULT_CONFIG DEFAULT_CONFIG sAli sAli "Yuran Mengaji"
    "Yuran Mengaji" 50 50 "2024-05-01" "2024-05-01" "DN-20240517-103000"
    "DN-20240517-103000" rfl rfl rfl rfl rfl rfl

/-- Claim C9 (amended): a combined batch over three records always has
exactly three pages, and the pages show pairwise distinct receipt numbers
whenever the three loop iterations observe pairwise distinct
second-granularity timestamps (within one second the numbers coincide, see
the counterexample). -/
theorem bulk_three_pages_distinct_receipts (cfg : Config) (r1 r2 r3 : Student)
    (fee_key : FeeKey) (clock : Nat → DT) (doc : Doc)
    (hdoc : generate_bulk_one_pdf cfg [r1, r2, r3] fee_key clock = some doc) :
    doc.length = 3 ∧
    (stamp (clock 0) ≠ stamp (clock 1) → stamp (clock 0) ≠ stamp (clock 2) →
     stamp (clock 1) ≠ stamp (clock 2) →
      ((doc[0]?).bind (fun p => cellTextAt p 22) ≠ (doc[1]?).bind (fun p => cellTextAt p 22) ∧
       (doc[0]?).bind (fun p => cellTextAt p 22) ≠ (doc[2]?).bind (fun p => cellTextAt p 22) ∧
       (doc[1]?).bind (fun p => cellTextAt p 22) ≠ (doc[2]?).bind (fun p => cellTextAt p 22))) := by
  rcases hl : labelOf cfg fee_key with _ | label <;>
    simp only [generate_bulk_one_pdf, hl, Option.map_none', Option.map_some'] at hdoc
  · exact absurd hdoc (by simp)
  · replace hdoc := Option.some.inj hdoc
    subst hdoc
    have hrno : ∀ (row : Student) (t : DT),
        cellTextAt (bulk_page cfg label row fee_key t) 22 =
          some (next_receipt_no (cfg.receipt_pfx.getD "DN") t) := by
      intro row t
      cases fee_key <;> rfl
    have hcell : ∀ (i : Nat) (row : Student),
        ([r1, r2, r3] : List Student)[i]? = some row →
        ((bulk_pages cfg label fee_key clock [r1, r2, r3])[i]?).bind
            (fun p => cellTextAt p 22) =
          some (next_receipt_no (cfg.receipt_pfx.getD "DN") (clock i)) := by
      intro i row hi
      simp [bulk_pages_getElem, hi, hrno]
    refine ⟨bulk_pages_length cfg label fee_key clock [r1, r2, r3], ?_⟩
    intro h01 h02 h12
    rw [hcell 0 r1 rfl, hcell 1 r2 rfl, hcell 2 r3 rfl]
    refine ⟨fun he => ?_, fun he => ?_, fun he => ?_⟩
    · exact next_receipt_no_ne _ h01 (Option.some.inj he)
    · exact next_receipt_no_ne _ h02 (Option.some.inj he)
    · exact next_receipt_no_ne _ h12 (Option.some.inj he)

theorem bulk_three_pages_distinct_receipts_witness :
    ((generate_bulk_one_pdf DEFAULT_CONFIG [sAli, sBud, sCik] FeeKey.MENGAJI clk012).getD
        []).length = 3 ∧
    ((((generate_bulk_one_pdf DEFAULT_CONFIG [sAli, sBud, sCik] FeeKey.MENGAJI clk012).getD
        [])[0]?).bind (fun p => cellTextAt p 22) ≠
      (((generate_bulk_one_pdf DEFAULT_CONFIG [sAli, sBud, sCik] FeeKey.MENGAJI clk012).getD
        [])[1]?).bind (fun p => cellTextAt p 22)) := by
  have h := bulk_three_pages_distinct_receipts DEFAULT_CONFIG sAli sBud sCik FeeKey.MENGAJI
    clk012
    ((generate_bulk_one_pdf DEFAULT_CONFIG [sAli, sBud, sCik] FeeKey.MENGAJI clk012).getD [])
    rfl
  exact ⟨h.1, (h.2 (by decide) (by decide) (by decide)).1⟩

/-- Claim C9 is false as stated: three records whose pages render within the
same second receive the same receipt number — the document still has exactly
three pages, but pages 0 and 1 both show `DN-20240517-103000`. -/
theorem same_second_receipts_counterexample :
    ((generate_bulk_one_pdf DEFAULT_CONFIG [sAli, sBud, sCik] FeeKey.MENGAJI clk0).getD
        []).length = 3 ∧
    ((((generate_bulk_one_pdf DEFAULT_CONFIG [sAli, sBud, sCik] FeeKey.MENGAJI clk0).getD
        [])[0]?).bind (fun p => cellTextAt p 22) = some "DN-20240517-103000") ∧
    ((((generate_bulk_one_pdf DEFAULT_CONFIG [sAli, sBud, sCik] FeeKey.MENGAJI clk0).getD
        [])[1]?).bind (fun p => cellTextAt p 22) = some "DN-20240517-103000") := by
  refine ⟨rfl, rfl, rfl⟩

/-- Claim C10: the render output for one fee category is unchanged when only
the other category's status, amount or date fields vary (noninterference
between the two categories at the render interface). -/
theorem fee_category_noninterference (cfg : Config) (now : DT) (r rB : Student) :
    (r.NAMA = rB.NAMA → r.NO_KP = rB.NO_KP → r.TINGKATAN = rB.TINGKATAN →
     r.KELAS = rB.KELAS → r.MENGAJI_STATUS = rB.MENGAJI_STATUS →
     r.MENGAJI_AMOUNT = rB.MENGAJI_AMOUNT → r.MENGAJI_DATE = rB.MENGAJI_DATE →
     generate_single_pdf cfg r FeeKey.MENGAJI now =
       generate_single_pdf cfg rB FeeKey.MENGAJI now) ∧
    (r.NAMA = rB.NAMA → r.NO_KP = rB.NO_KP → r.TINGKATAN = rB.TINGKATAN →
     r.KELAS = rB.KELAS → r.SILAT_STATUS = rB.SILAT_STATUS →
     r.SILAT_AMOUNT = rB.SILAT_AMOUNT → r.SILAT_DATE = rB.SILAT_DATE →
     generate_single_pdf cfg r FeeKey.SILAT now =
       generate_single_pdf cfg rB FeeKey.SILAT now) := by
  constructor <;> intro h1 h2 h3 h4 h5 h6 h7 <;>
    simp [generate_single_pdf, build_receipt_pdf_bytes, amountField, dateField,
      h1, h2, h3, h4, h5, h6, h7]

theorem fee_category_noninterference_witness :
    generate_single_pdf DEFAULT_CONFIG sAli FeeKey.MENGAJI t0 =
      generate_single_pdf DEFAULT_CONFIG sAliSilat FeeKey.MENGAJI t0 :=
  (fee_category_noninterference DEFAULT_CONFIG t0 sAli sAliSilat).1
    rfl rfl rfl rfl rfl rfl rfl

end App
